import Mathlib

/-!
Verification of the static-website-host repository: a shallow embedding of
the request-path resolution and file-serving logic of `src/www.rs` and the
context construction of `src/state.rs`, with theorems settling the spec's
claims about containment, directory fallback, headers and error handling.

Filesystem paths are modelled as lists of components, mirroring
`std::path::Component` (RootDir, CurDir, ParentDir, Normal).  The real
filesystem is abstracted as a record of the query functions the code calls
(`canonicalize`, `is_dir`, `exists`, `File::open`, `metadata`).
-/

namespace StaticWebsiteHost

/-- Mirrors `std::path::Component`: a single component of a path. -/
inductive Component where
  | rootDir : Component
  | curDir : Component
  | parentDir : Component
  | normal : String → Component
deriving DecidableEq, Repr

/-- A path is its sequence of components, as produced by `Path::components()`. -/
abbrev FsPath := List Component

/-- The filesystem as seen through the queries the server performs.
Each field models one `std::fs` / `tokio::fs` operation:
`canonicalize` returns the canonical path or `none` on error (missing file,
broken symlink, permission error); `isDir` models `Path::is_dir`;
`pathExists` models `Path::exists`; `openOk` tells whether `File::open`
succeeds; `metaLen` models `File::metadata(..).len()`, `none` on error. -/
structure FS where
  canonicalize : FsPath → Option FsPath
  isDir : FsPath → Bool
  pathExists : FsPath → Bool
  openOk : FsPath → Bool
  metaLen : FsPath → Option Nat

/-- The server context of `state.rs`: name/version strings plus the site
root and the not-found file paths. -/
structure Context where
  name : String
  version : String
  site : FsPath
  not_found_file : FsPath
deriving DecidableEq, Repr

/-- Validity of a single byte in an HTTP header value, as checked by
`http::HeaderValue::from_str`: horizontal tab, or any byte that is at
least 32 and not DEL (127). -/
def isValidHeaderChar (c : Char) : Bool :=
  (32 ≤ c.toNat && c.toNat != 127) || c.toNat == 9

/-- Models `HeaderValue::from_str`: succeeds (returning the string) exactly
when every character is valid in a header value. -/
def headerValueFromStr (s : String) : Option String :=
  if s.data.all isValidHeaderChar then some s else none

/-- The body of a response: either a stream of the file opened at the given
path (`AsyncReadBody::new(handle)`) or inline text bytes. -/
inductive Body where
  | stream : FsPath → Body
  | text : String → Body
deriving DecidableEq, Repr

/-- The `(StatusCode, HeaderMap, AsyncReadBody)` triple returned by the
handler.  Headers are kept in insertion order as name/value pairs. -/
structure Response where
  status : Nat
  headers : List (String × String)
  body : Body
deriving DecidableEq, Repr

/-- Extracts what `Path::extension` would return from a file name: the
portion after the last dot, unless there is no dot past the first
character (a name like `.gitignore` or `foo` has no extension). -/
def extAfterLastDot : List Char → Option (List Char)
  | [] => none
  | c :: rest =>
    match extAfterLastDot rest with
    | some e => some e
    | none => if c == '.' then some rest else none

/-- `Path::extension().and_then(OsStr::to_str)` on a file name string. -/
def rustExtension (name : String) : Option String :=
  match name.data with
  | [] => none
  | _ :: rest => (extAfterLastDot rest).map fun e => String.mk e

/-- `Path::file_name` for a component path: the final component when it is
a normal component. -/
def fileName (p : FsPath) : Option String :=
  match p.getLast? with
  | some (Component.normal s) => some s
  | _ => none

/-- The extension of the final path component, as `path.extension()` in
`return_file` computes it. -/
def pathExtension (p : FsPath) : Option String :=
  (fileName p).bind rustExtension

/-- The mime-type table of `return_file` (www.rs lines 56-61). -/
def mimeType (p : FsPath) : String :=
  match pathExtension p with
  | some "html" => "text/html"
  | some "js" => "text/javascript"
  | some "css" => "text/css"
  | _ => "text/plain"

/-- Embeds `return_file` (www.rs lines 42-81).  Returns `none` exactly when
the `unwrap` on the Server header value would panic; otherwise `some` of
the `(code, headers, body)` triple.  An open or metadata failure returns
the requested code with an empty header map and the inline text body. -/
def return_file (fs : FS) (state : Context) (code : Nat) (path : FsPath) : Option Response :=
  if fs.openOk path = false then
    some ⟨code, [], Body.text "Internal server error"⟩
  else
    let mime := mimeType path
    match fs.metaLen path with
    | none => some ⟨code, [], Body.text "Internal server error"⟩
    | some len =>
      match headerValueFromStr (state.name ++ "/" ++ state.version) with
      | none => none
      | some server =>
        some ⟨code,
              [("content-type", mime), ("content-length", toString len), ("server", server)],
              Body.stream path⟩

/-- `file_path.extend(path.components().skip_while(RootDir))` (www.rs lines
109-110): join the request path onto the site root, dropping leading
root-directory components. -/
def joinRequest (site : FsPath) (req : FsPath) : FsPath :=
  site ++ req.dropWhile (fun c => c == Component.rootDir)

/-- Embeds `handle` (www.rs lines 104-140): canonicalize the joined path,
check containment by `starts_with`, apply the `index.html` directory rule,
and answer 200 with the file or 404 with the not-found file. -/
def handle (fs : FS) (state : Context) (path : Option FsPath) : Option Response :=
  let path : FsPath := path.getD []
  let file_path : FsPath := joinRequest state.site path
  match fs.canonicalize file_path with
  | some p =>
    if state.site.isPrefixOf p then
      if fs.isDir p then
        let p2 : FsPath := p ++ [Component.normal "index.html"]
        if fs.pathExists p2 then
          return_file fs state 200 p2
        else
          return_file fs state 404 state.not_found_file
      else
        return_file fs state 200 p
    else
      return_file fs state 404 state.not_found_file
  | none => return_file fs state 404 state.not_found_file

/-- The Path Resolver of the spec, read off the same code: `some p` when
the request resolves to a servable file `p`, `none` when denied. -/
def resolve (fs : FS) (site : FsPath) (req : FsPath) : Option FsPath :=
  match fs.canonicalize (joinRequest site req) with
  | some p =>
    if site.isPrefixOf p then
      if fs.isDir p then
        let p2 : FsPath := p ++ [Component.normal "index.html"]
        if fs.pathExists p2 then some p2 else none
      else some p
    else none
  | none => none

/-- `return_file` with each filesystem call reading the filesystem as it
stands at the moment of the call: `File::open` at time `t`, `metadata` at
time `t + 1`.  Used to state idempotence under an unchanged filesystem. -/
def return_fileAt (fsAt : Nat → FS) (t : Nat) (state : Context) (code : Nat) (path : FsPath) :
    Option Response :=
  if (fsAt t).openOk path = false then
    some ⟨code, [], Body.text "Internal server error"⟩
  else
    let mime := mimeType path
    match (fsAt (t + 1)).metaLen path with
    | none => some ⟨code, [], Body.text "Internal server error"⟩
    | some len =>
      match headerValueFromStr (state.name ++ "/" ++ state.version) with
      | none => none
      | some server =>
        some ⟨code,
              [("content-type", mime), ("content-length", toString len), ("server", server)],
              Body.stream path⟩

/-- `handle` with each filesystem call time-stamped in program order:
`canonicalize`, then `is_dir`, then `exists`, then the two calls inside
`return_file`. -/
def handleAt (fsAt : Nat → FS) (t : Nat) (state : Context) (path : Option FsPath) :
    Option Response :=
  let path : FsPath := path.getD []
  let file_path : FsPath := joinRequest state.site path
  match (fsAt t).canonicalize file_path with
  | some p =>
    if state.site.isPrefixOf p then
      if (fsAt (t + 1)).isDir p then
        let p2 : FsPath := p ++ [Component.normal "index.html"]
        if (fsAt (t + 2)).pathExists p2 then
          return_fileAt fsAt (t + 3) state 200 p2
        else
          return_fileAt fsAt (t + 3) state 404 state.not_found_file
      else
        return_fileAt fsAt (t + 2) state 200 p
    else
      return_fileAt fsAt (t + 1) state 404 state.not_found_file
  | none => return_fileAt fsAt (t + 1) state 404 state.not_found_file

/-- The outcome of `File::open` + `serde_yml::from_reader` on the config
file: absent (`ErrorKind::NotFound`), unreadable (any other open error),
unparseable, or parsed into the `site` / `not_found_file` fields. -/
inductive ConfigFile where
  | absent : ConfigFile
  | unreadable : ConfigFile
  | unparseable : ConfigFile
  | parsed : FsPath → FsPath → ConfigFile

/-- The error enum of `state.rs` (`Error`). -/
inductive CtxError where
  | configOpen : CtxError
  | configParse : CtxError
  | configCreate : CtxError
  | configWrite : CtxError
  | notFoundFileCreate : CtxError
  | siteDirCanonicalize : CtxError
  | siteDirCreate : CtxError
deriving DecidableEq, Repr

/-- The world `Context::new` runs in: the config file's state, the
existence and canonicalization views of the filesystem, and whether each
write-effect the constructor may attempt would succeed. -/
structure SysState where
  config : ConfigFile
  pathExists : FsPath → Bool
  canonicalize : FsPath → Option FsPath
  createCfgOk : Bool
  writeCfgOk : Bool
  createDirAllOk : Bool
  writeNotFoundOk : Bool

/-- `"./www".into()`: the default site directory of `state.rs` line 141. -/
def defaultSite : FsPath := [Component.curDir, Component.normal "www"]

/-- `"./www/not_found.html".into()`: the default not-found file. -/
def defaultNotFound : FsPath :=
  [Component.curDir, Component.normal "www", Component.normal "not_found.html"]

/-- Effect of `fs::create_dir_all(p)` on the existence view: `p` and all
its ancestors exist afterwards. -/
def SysState.afterCreateDirAll (w : SysState) (p : FsPath) : SysState :=
  { w with pathExists := fun q => w.pathExists q || q.isPrefixOf p }

/-- Effect of `fs::write(p, ..)` on the existence view: `p` exists
afterwards. -/
def SysState.afterWrite (w : SysState) (p : FsPath) : SysState :=
  { w with pathExists := fun q => w.pathExists q || q == p }

/-- Embeds `Context::new` (state.rs lines 130-188), returning the
constructed context together with the world as left behind by its
filesystem effects.  An absent config file generates and writes the
default config and returns it immediately; a present one is parsed, then
the site directory is created if missing and canonicalized, and the
not-found file is created if missing. -/
def Context.new (name : String) (version : String) (w : SysState) :
    Except CtxError (Context × SysState) :=
  match w.config with
  | ConfigFile.unreadable => Except.error CtxError.configOpen
  | ConfigFile.absent =>
    let defCtx : Context := ⟨name, version, defaultSite, defaultNotFound⟩
    if w.createCfgOk then
      if w.writeCfgOk then
        Except.ok (defCtx, { w with config := ConfigFile.parsed defaultSite defaultNotFound })
      else
        Except.error CtxError.configWrite
    else
      Except.error CtxError.configCreate
  | ConfigFile.unparseable => Except.error CtxError.configParse
  | ConfigFile.parsed site nf =>
    let step1 : Except CtxError SysState :=
      if w.pathExists site then Except.ok w
      else if w.createDirAllOk then Except.ok (w.afterCreateDirAll site)
      else Except.error CtxError.siteDirCreate
    match step1 with
    | Except.error e => Except.error e
    | Except.ok w1 =>
      match w1.canonicalize site with
      | none => Except.error CtxError.siteDirCanonicalize
      | some csite =>
        if w1.pathExists nf then
          Except.ok (⟨name, version, csite, nf⟩, w1)
        else if w1.writeNotFoundOk then
          Except.ok (⟨name, version, csite, nf⟩, w1.afterWrite nf)
        else
          Except.error CtxError.notFoundFileCreate

/-- A small concrete site root, `/srv`. -/
def egSite : FsPath := [Component.rootDir, Component.normal "srv"]

/-- The concrete not-found file, `/srv/not_found.html`. -/
def egNotFound : FsPath := egSite ++ [Component.normal "not_found.html"]

/-- A small concrete filesystem around `egSite`: the root holds
`index.html`, `b.html`, a directory `dirA` with an index, a directory
`dirB` without one, a symlink `evil` resolving to `/etc/passwd`, plus a
file that cannot be opened and a file whose metadata read fails. -/
def egFS : FS where
  canonicalize p :=
    if p = egSite then some egSite
    else if p = egSite ++ [Component.normal "a", Component.parentDir, Component.normal "b.html"] then
      some (egSite ++ [Component.normal "b.html"])
    else if p = egSite ++ [Component.normal "b.html"] then
      some (egSite ++ [Component.normal "b.html"])
    else if p = egSite ++ [Component.normal "evil"] then
      some [Component.rootDir, Component.normal "etc", Component.normal "passwd"]
    else if p = egSite ++ [Component.normal "dirA"] then some (egSite ++ [Component.normal "dirA"])
    else if p = egSite ++ [Component.normal "dirB"] then some (egSite ++ [Component.normal "dirB"])
    else none
  isDir p :=
    p == egSite || p == egSite ++ [Component.normal "dirA"] || p == egSite ++ [Component.normal "dirB"]
  pathExists p :=
    p == egSite ++ [Component.normal "index.html"]
      || p == egSite ++ [Component.normal "dirA", Component.normal "index.html"]
  openOk p := !(p == [Component.rootDir, Component.normal "noopen"])
  metaLen p := if p = [Component.rootDir, Component.normal "nometa"] then none else some 4

/-- A concrete context over `egFS`. -/
def egCtx : Context := ⟨"srv", "1.0", egSite, egNotFound⟩

/-- The concrete 404 response `egFS` produces for a denied request. -/
def egResp404 : Response :=
  ⟨404,
   [("content-type", "text/html"), ("content-length", "4"), ("server", "srv/1.0")],
   Body.stream egNotFound⟩

/-- A world with no config file and an otherwise empty filesystem, where
every write the constructor attempts would succeed. -/
def egAbsentWorld : SysState where
  config := ConfigFile.absent
  pathExists := fun _ => false
  canonicalize := fun _ => none
  createCfgOk := true
  writeCfgOk := true
  createDirAllOk := true
  writeNotFoundOk := true

/-- `handle` is the composition of `resolve` with `return_file`: it serves
the resolved path with 200, or the not-found file with 404 on denial. -/
theorem handle_eq_resolve (fs : FS) (state : Context) (path : Option FsPath) :
    handle fs state path =
      match resolve fs state.site (path.getD []) with
      | some p => return_file fs state 200 p
      | none => return_file fs state 404 state.not_found_file := by
  simp only [handle, resolve]
  cases h : fs.canonicalize (joinRequest state.site (path.getD [])) with
  | none => rfl
  | some p =>
    by_cases h1 : state.site.isPrefixOf p <;>
      by_cases h2 : fs.isDir p <;>
        by_cases h3 : fs.pathExists (p ++ [Component.normal "index.html"]) <;>
          simp [h1, h2, h3]

/-- Any response `return_file` actually produces carries exactly the
requested status code. -/
theorem return_file_status (fs : FS) (state : Context) (code : Nat) (path : FsPath)
    (r : Response) (h : return_file fs state code path = some r) : r.status = code := by
  unfold return_file at h
  by_cases ho : fs.openOk path = false
  · simp [ho] at h
    simp [← h]
  · simp [ho] at h
    cases hm : fs.metaLen path with
    | none => rw [hm] at h; simp at h; simp [← h]
    | some len =>
      rw [hm] at h
      cases hs : headerValueFromStr (state.name ++ "/" ++ state.version) with
      | none => rw [hs] at h; simp at h
      | some server => rw [hs] at h; simp at h; simp [← h]

/-- When the body `return_file` produces is a file stream, it streams
exactly the requested path. -/
theorem return_file_stream_path (fs : FS) (state : Context) (code : Nat) (path : FsPath)
    (r : Response) (q : FsPath) (h : return_file fs state code path = some r)
    (hb : r.body = Body.stream q) : q = path := by
  unfold return_file at h
  by_cases ho : fs.openOk path = false
  · simp [ho] at h
    rw [← h] at hb
    simp at hb
  · simp [ho] at h
    cases hm : fs.metaLen path with
    | none => rw [hm] at h; simp at h; rw [← h] at hb; simp at hb
    | some len =>
      rw [hm] at h
      cases hs : headerValueFromStr (state.name ++ "/" ++ state.version) with
      | none => rw [hs] at h; simp at h
      | some server =>
        rw [hs] at h; simp at h; rw [← h] at hb; simp at hb; exact hb.symm

/-- `List.isPrefixOf` survives extending the longer list on the right. -/
theorem isPrefixOf_append_right {α : Type} [BEq α] :
    ∀ (l p xs : List α), l.isPrefixOf p = true → l.isPrefixOf (p ++ xs) = true := by
  intro l
  induction l with
  | nil => intro p xs _; simp [List.isPrefixOf_nil_left]
  | cons a as ih =>
    intro p xs h
    cases p with
    | nil => simp [List.isPrefixOf] at h
    | cons b bs =>
      simp [List.isPrefixOf] at h ⊢
      exact ⟨h.1, ih bs xs h.2⟩

/-- `List.isPrefixOf` is reflexive. -/
theorem isPrefixOf_self {α : Type} [BEq α] [ReflBEq α] :
    ∀ l : List α, l.isPrefixOf l = true := by
  intro l
  induction l with
  | nil => rfl
  | cons a as ih => simp [List.isPrefixOf, ih]

/-- Claim C1, counterexample: the request `/a/../b.html` contains both an
absolute-path prefix and a `..` segment, yet on a filesystem where the
traversal canonicalizes back inside the site root the handler serves it
with status 200 — it is not "always denied (served as 404 with the
not-found file)". -/
theorem c1_containment_counterexample :
    handle egFS egCtx
        (some [Component.rootDir, Component.normal "a", Component.parentDir,
               Component.normal "b.html"]) =
      some ⟨200,
            [("content-type", "text/html"), ("content-length", "4"), ("server", "srv/1.0")],
            Body.stream (egSite ++ [Component.normal "b.html"])⟩ := by
  decide

/-- Claim C1, amended: whenever canonicalization of the joined path yields
a path that does not have the site root as a component prefix — as happens
when `..` segments walk above the root or a symlink inside the root points
outside — the handler denies with 404 and the not-found file; and every
200 response streams a file whose path has the canonicalized site root as
a component prefix (the containment check runs on the canonicalized
path). -/
theorem c1_containment (fs : FS) (state : Context) (req : FsPath) :
    (∀ p, fs.canonicalize (joinRequest state.site req) = some p →
       state.site.isPrefixOf p = false →
       handle fs state (some req) = return_file fs state 404 state.not_found_file)
  ∧ (∀ r q, handle fs state (some req) = some r → r.status = 200 →
       r.body = Body.stream q → state.site.isPrefixOf q = true) := by
  constructor
  · intro p hc hpre
    simp [handle, hc, hpre]
  · intro r q hh hst hb
    unfold handle at hh
    simp only [Option.getD_some] at hh
    cases hc : fs.canonicalize (joinRequest state.site req) with
    | none =>
      simp only [hc] at hh
      have := return_file_status fs state 404 state.not_found_file r hh
      rw [this] at hst
      exact absurd hst (by decide)
    | some p =>
      simp only [hc] at hh
      by_cases hpre : state.site.isPrefixOf p
      · rw [if_pos hpre] at hh
        by_cases hdir : fs.isDir p
        · rw [if_pos hdir] at hh
          by_cases hex : fs.pathExists (p ++ [Component.normal "index.html"])
          · rw [if_pos hex] at hh
            have hq := return_file_stream_path fs state 200
              (p ++ [Component.normal "index.html"]) r q hh hb
            rw [hq]
            exact isPrefixOf_append_right state.site p [Component.normal "index.html"] hpre
          · rw [if_neg hex] at hh
            have := return_file_status fs state 404 state.not_found_file r hh
            rw [this] at hst
            exact absurd hst (by decide)
        · rw [if_neg hdir] at hh
          have hq := return_file_stream_path fs state 200 p r q hh hb
          rw [hq]
          exact hpre
      · rw [if_neg hpre] at hh
        have := return_file_status fs state 404 state.not_found_file r hh
        rw [this] at hst
        exact absurd hst (by decide)

/-- Claim C1, witness: a symlink `evil` inside the root canonicalizes to
`/etc/passwd`, outside the root, and the handler answers with the 404
not-found response. -/
theorem c1_containment_witness :
    handle egFS egCtx (some [Component.normal "evil"]) =
      return_file egFS egCtx 404 egCtx.not_found_file :=
  (c1_containment egFS egCtx [Component.normal "evil"]).1
    [Component.rootDir, Component.normal "etc", Component.normal "passwd"]
    (by decide) (by decide)

/-- Claim C3: the file responder never fails outwardly — if opening the
file fails, or reading its metadata fails, the response keeps the
originally requested status code, has an empty header map, and carries the
plain-text body "Internal server error". -/
theorem c3_error_degrade (fs : FS) (state : Context) (code : Nat) (path : FsPath) :
    (fs.openOk path = false →
       return_file fs state code path = some ⟨code, [], Body.text "Internal server error"⟩)
  ∧ (fs.metaLen path = none →
       return_file fs state code path = some ⟨code, [], Body.text "Internal server error"⟩) := by
  constructor
  · intro h
    simp [return_file, h]
  · intro h
    by_cases ho : fs.openOk path = false
    · simp [return_file, ho]
    · simp [return_file, ho, h]

/-- Claim C3, witness: a 404-coded response for an unopenable file and a
200-coded response for a file with failing metadata both degrade in
place. -/
theorem c3_error_degrade_witness :
    return_file egFS egCtx 404 [Component.rootDir, Component.normal "noopen"] =
      some ⟨404, [], Body.text "Internal server error"⟩
  ∧ return_file egFS egCtx 200 [Component.rootDir, Component.normal "nometa"] =
      some ⟨200, [], Body.text "Internal server error"⟩ :=
  ⟨(c3_error_degrade egFS egCtx 404 [Component.rootDir, Component.normal "noopen"]).1 (by decide),
   (c3_error_degrade egFS egCtx 200 [Component.rootDir, Component.normal "nometa"]).2 (by decide)⟩

/-- Claim C4: on every denied resolution the handler invokes the file
responder with status 404 and the context's not-found file path passed
through unchanged, and every status code the handler returns is either
200 or 404. -/
theorem c4_denied_and_status (fs : FS) (state : Context) (req : Option FsPath) :
    (resolve fs state.site (req.getD []) = none →
       handle fs state req = return_file fs state 404 state.not_found_file)
  ∧ (∀ r, handle fs state req = some r → r.status = 200 ∨ r.status = 404) := by
  constructor
  · intro h
    rw [handle_eq_resolve, h]
  · intro r h
    rw [handle_eq_resolve] at h
    cases hres : resolve fs state.site (req.getD []) with
    | some p =>
      rw [hres] at h
      exact Or.inl (return_file_status fs state 200 p r h)
    | none =>
      rw [hres] at h
      exact Or.inr (return_file_status fs state 404 state.not_found_file r h)

/-- Claim C4, witness: a nonexistent file is denied, and the handler's
concrete response status at that input is 200 or 404. -/
theorem c4_denied_and_status_witness :
    handle egFS egCtx (some [Component.normal "missing"]) =
      return_file egFS egCtx 404 egCtx.not_found_file
  ∧ (egResp404.status = 200 ∨ egResp404.status = 404) :=
  ⟨(c4_denied_and_status egFS egCtx (some [Component.normal "missing"])).1 (by decide),
   (c4_denied_and_status egFS egCtx (some [Component.normal "missing"])).2 egResp404 (by decide)⟩

/-- Claim C5: when the request's canonicalized, contained resolution is an
existing directory, the handler serves `<dir>/index.html` with status 200
when the directory contains `index.html`, and denies (404 with the
not-found file) when it does not — never an auto-generated listing. -/
theorem c5_directory_fallback (fs : FS) (state : Context) (req : FsPath) (p : FsPath)
    (hc : fs.canonicalize (joinRequest state.site req) = some p)
    (hpre : state.site.isPrefixOf p = true)
    (hdir : fs.isDir p = true) :
    (fs.pathExists (p ++ [Component.normal "index.html"]) = true →
       handle fs state (some req) =
         return_file fs state 200 (p ++ [Component.normal "index.html"]))
  ∧ (fs.pathExists (p ++ [Component.normal "index.html"]) = false →
       handle fs state (some req) = return_file fs state 404 state.not_found_file) := by
  constructor
  · intro hex
    simp [handle, hc, hpre, hdir, hex]
  · intro hex
    simp [handle, hc, hpre, hdir, hex]

/-- Claim C5, witness: `dirA` holds an `index.html` and is served, `dirB`
holds none and is denied. -/
theorem c5_directory_fallback_witness :
    handle egFS egCtx (some [Component.normal "dirA"]) =
      return_file egFS egCtx 200
        (egSite ++ [Component.normal "dirA", Component.normal "index.html"])
  ∧ handle egFS egCtx (some [Component.normal "dirB"]) =
      return_file egFS egCtx 404 egCtx.not_found_file :=
  ⟨(c5_directory_fallback egFS egCtx [Component.normal "dirA"]
      (egSite ++ [Component.normal "dirA"]) (by decide) (by decide) (by decide)).1 (by decide),
   (c5_directory_fallback egFS egCtx [Component.normal "dirB"]
      (egSite ++ [Component.normal "dirB"]) (by decide) (by decide) (by decide)).2 (by decide)⟩

/-- Claim C6: a missing path segment and the empty path behave exactly
like the path `/`: all join to the site root itself, and when the root is
a directory holding `index.html` they serve that file. -/
theorem c6_root_default (fs : FS) (state : Context) :
    handle fs state none = handle fs state (some [Component.rootDir])
  ∧ handle fs state none = handle fs state (some [])
  ∧ joinRequest state.site [] = state.site
  ∧ (fs.canonicalize state.site = some state.site →
     fs.isDir state.site = true →
     fs.pathExists (state.site ++ [Component.normal "index.html"]) = true →
     handle fs state none =
       return_file fs state 200 (state.site ++ [Component.normal "index.html"])) := by
  refine ⟨rfl, rfl, by simp [joinRequest], ?_⟩
  intro h1 h2 h3
  have hj : joinRequest state.site ([] : FsPath) = state.site := by simp [joinRequest]
  simp [handle, hj, h1, h2, h3, isPrefixOf_self]

/-- Claim C6, witness: with `/srv` canonical, a directory and holding an
`index.html`, the missing-path request serves `/srv/index.html`. -/
theorem c6_root_default_witness :
    handle egFS egCtx none =
      return_file egFS egCtx 200 (egSite ++ [Component.normal "index.html"]) :=
  (c6_root_default egFS egCtx).2.2.2 (by decide) (by decide) (by decide)

/-- Claim C7: whenever file open and metadata read succeed, the headers
are exactly Content-Type from the extension table (`html`/`js`/`css`, any
other or none is `text/plain`), Content-Length from the metadata length,
and Server equal to `<name>/<version>` from the context. -/
theorem c7_success_headers (fs : FS) (state : Context) (code : Nat) (path : FsPath) (len : Nat)
    (hopen : fs.openOk path = true)
    (hmeta : fs.metaLen path = some len)
    (hsrv : (state.name ++ "/" ++ state.version).data.all isValidHeaderChar = true) :
    return_file fs state code path =
      some ⟨code,
            [("content-type", mimeType path),
             ("content-length", toString len),
             ("server", state.name ++ "/" ++ state.version)],
            Body.stream path⟩
  ∧ (pathExtension path = some "html" → mimeType path = "text/html")
  ∧ (pathExtension path = some "js" → mimeType path = "text/javascript")
  ∧ (pathExtension path = some "css" → mimeType path = "text/css")
  ∧ (∀ e, pathExtension path = some e → e ≠ "html" → e ≠ "js" → e ≠ "css" →
       mimeType path = "text/plain")
  ∧ (pathExtension path = none → mimeType path = "text/plain") := by
  have hs : headerValueFromStr (state.name ++ "/" ++ state.version) =
      some (state.name ++ "/" ++ state.version) := by
    unfold headerValueFromStr
    rw [if_pos hsrv]
  refine ⟨?_, ?_, ?_, ?_, ?_, ?_⟩
  · simp [return_file, hopen, hmeta, hs]
  · intro he; simp [mimeType, he]
  · intro he; simp [mimeType, he]
  · intro he; simp [mimeType, he]
  · intro e he h1 h2 h3
    unfold mimeType
    rw [he]
    split <;> simp_all
  · intro he; simp [mimeType, he]

/-- Claim C7, witness: `/srv/b.html` opens with length 4 and yields the
three headers with `text/html` and `srv/1.0`. -/
theorem c7_success_headers_witness :
    return_file egFS egCtx 200 (egSite ++ [Component.normal "b.html"]) =
      some ⟨200,
            [("content-type", mimeType (egSite ++ [Component.normal "b.html"])),
             ("content-length", toString 4),
             ("server", egCtx.name ++ "/" ++ egCtx.version)],
            Body.stream (egSite ++ [Component.normal "b.html"])⟩ :=
  (c7_success_headers egFS egCtx 200 (egSite ++ [Component.normal "b.html"]) 4
    (by decide) (by decide) (by decide)).1

/-- Claim C8: any two denied requests — whatever the denial cause:
canonicalization failure, containment escape, or a directory without an
index — produce identical responses; the cause is not observable. -/
theorem c8_denial_uniform (fs : FS) (state : Context) (req1 req2 : FsPath)
    (h1 : resolve fs state.site req1 = none)
    (h2 : resolve fs state.site req2 = none) :
    handle fs state (some req1) = handle fs state (some req2) := by
  rw [handle_eq_resolve, handle_eq_resolve]
  simp only [Option.getD_some]
  rw [h1, h2]

/-- Claim C8, witness: a missing file, an escaping symlink, and a
directory without an index all yield the same response. -/
theorem c8_denial_uniform_witness :
    handle egFS egCtx (some [Component.normal "missing"]) =
      handle egFS egCtx (some [Component.normal "evil"])
  ∧ handle egFS egCtx (some [Component.normal "evil"]) =
      handle egFS egCtx (some [Component.normal "dirB"]) :=
  ⟨c8_denial_uniform egFS egCtx [Component.normal "missing"] [Component.normal "evil"]
     (by decide) (by decide),
   c8_denial_uniform egFS egCtx [Component.normal "evil"] [Component.normal "dirB"]
     (by decide) (by decide)⟩

/-- Claim C9: resolving the same request twice against the same unchanged
filesystem and the same context yields the same outcome, whatever the two
starting times; and the time-stamped handler over a constant filesystem
agrees with `handle`. -/
theorem c9_idempotent (fsAt : Nat → FS) (state : Context) (req : Option FsPath) (t1 t2 : Nat)
    (hconst : ∀ t, fsAt t = fsAt 0) :
    handleAt fsAt t1 state req = handleAt fsAt t2 state req
  ∧ handleAt (fun _ => fsAt 0) 0 state req = handle (fsAt 0) state req := by
  constructor
  · simp only [handleAt, return_fileAt, hconst]
  · rfl

/-- Claim C9, witness: two runs of the time-stamped handler at times 3 and
17 over the constant filesystem coincide. -/
theorem c9_idempotent_witness :
    handleAt (fun _ => egFS) 3 egCtx (some [Component.normal "b.html"]) =
      handleAt (fun _ => egFS) 17 egCtx (some [Component.normal "b.html"]) :=
  (c9_idempotent (fun _ => egFS) egCtx (some [Component.normal "b.html"]) 3 17
    (fun _ => rfl)).1

/-- Claim C10: when the context's name and version consist of characters
valid in an HTTP header value, the `unwrap` building the Server header can
never panic, so `return_file` — and with it `handle` — always returns a
response. -/
theorem c10_server_header_total (fs : FS) (state : Context)
    (hname : state.name.data.all isValidHeaderChar = true)
    (hver : state.version.data.all isValidHeaderChar = true) :
    (∀ code path, ∃ r, return_file fs state code path = some r)
  ∧ (∀ req, ∃ r, handle fs state req = some r) := by
  have hsrv : (state.name ++ "/" ++ state.version).data.all isValidHeaderChar = true := by
    have hd : (state.name ++ "/" ++ state.version).data =
        state.name.data ++ "/".data ++ state.version.data := by
      rw [String.data_append, String.data_append]
    rw [hd]
    simp only [List.all_append]
    rw [hname, hver]
    decide
  have hret : ∀ code path, ∃ r, return_file fs state code path = some r := by
    intro code path
    unfold return_file
    by_cases ho : fs.openOk path = false
    · rw [if_pos ho]
      exact ⟨_, rfl⟩
    · rw [if_neg ho]
      cases hm : fs.metaLen path with
      | none => exact ⟨_, rfl⟩
      | some len =>
        have hs : headerValueFromStr (state.name ++ "/" ++ state.version) =
            some (state.name ++ "/" ++ state.version) := by
          unfold headerValueFromStr
          rw [if_pos hsrv]
        rw [hs]
        exact ⟨_, rfl⟩
  refine ⟨hret, ?_⟩
  intro req
  rw [handle_eq_resolve]
  cases resolve fs state.site (req.getD []) with
  | some p => exact hret 200 p
  | none => exact hret 404 state.not_found_file

/-- Claim C10, witness: with the concrete context's name `srv` and version
`1.0`, both the file responder and the handler produce a response. -/
theorem c10_server_header_total_witness :
    (∃ r, return_file egFS egCtx 200 egSite = some r)
  ∧ (∃ r, handle egFS egCtx (some [Component.normal "evil"]) = some r) :=
  ⟨(c10_server_header_total egFS egCtx (by decide) (by decide)).1 200 egSite,
   (c10_server_header_total egFS egCtx (by decide) (by decide)).2
     (some [Component.normal "evil"])⟩

/-- Claim C2: evaluating `Context::new` in a world whose config file is
absent (with an otherwise empty filesystem and all writes succeeding):
construction succeeds, yet in the world it leaves behind the context's
`site` is the raw relative default `./www`, which does not exist and
cannot be canonicalized, and the not-found file does not exist either —
the generated defaults bypass the site-directory creation,
canonicalization, and not-found-file creation the parsed-config branch
performs. -/
theorem c2_absent_config_skips_validation :
    ∃ ctx w1, Context.new "static-website-host" "1.0.0" egAbsentWorld = Except.ok (ctx, w1)
      ∧ ctx.site = defaultSite
      ∧ ctx.site.head? = some Component.curDir
      ∧ w1.pathExists ctx.site = false
      ∧ w1.canonicalize ctx.site = none
      ∧ w1.pathExists ctx.not_found_file = false :=
  ⟨_, _, rfl, rfl, rfl, rfl, rfl, rfl⟩

end StaticWebsiteHost
